import Mathlib

/-!
# Verification of the DracAI multimodal RAG pipeline

A shallow embedding, in Lean 4, of the core of the DracAI backend
(`backend/app`): the document processor (content chunking, document
identity), the vector store (filtered similarity query, delete), the
query pipeline (retrieve, generate, conversation state) and the query
route (token accounting).  Python functions become Lean functions;
the stateful ChromaDB collection is modelled as a list of records;
the external language model, the embedding models and the distance
metric are parameters; fallible code returns `Option`/`Except`.
Each definition is translated from the corresponding Python source,
keeping its name where Lean permits.
-/

/-! ## Python string primitives

`backend/app/services/document_processor.py` slices Python strings with
`text[start:end]` where `start` may be any integer (the loop variable
`start` is stepped by `chunk_size - chunk_overlap`, which can be zero or
negative).  We model Python strings as `List Char` and reproduce Python
slice semantics, including negative indices. -/

/-- Resolution of one Python slice endpoint against a string of length
`len`: a negative index counts from the end (clamped at 0), a
non-negative index is clamped at `len`. -/
def pyResolve (len : Nat) (i : Int) : Nat :=
  if i < 0 then ((len : Int) + i).toNat else min len i.toNat

/-- Python's `text[a:b]` on a `List Char`. -/
def pySlice (text : List Char) (a b : Int) : List Char :=
  (text.take (pyResolve text.length b)).drop (pyResolve text.length a)

/-- Truthiness of Python's `s.strip()`: true iff the string contains a
non-whitespace character. -/
def hasNonWs (s : List Char) : Bool :=
  s.any (fun c => !c.isWhitespace)

/-! ## DocumentProcessor._chunk_text

`document_processor.py`, lines 168-196: a `while start < len(text)` loop
that emits the window `text[start:start+chunk_size]` whenever its
stripped content is nonempty, assigns `chunk_id` densely over emitted
chunks, and steps `start` by `chunk_size - chunk_overlap`.  The Python
loop has no termination guarantee, so the embedding is fuel-indexed and
returns `none` when the fuel is exhausted before the loop exits:
`chunkLoop ... fuel = none` for every `fuel` means the loop never
terminates. -/

/-- One emitted text chunk: its content and its `chunk_id` metadata. -/
structure TextChunk where
  content : List Char
  chunk_id : Nat
  deriving Repr, DecidableEq

/-- The `while start < len(text)` loop of `_chunk_text`, fuel-indexed. -/
def chunkLoop (chunkSize chunkOverlap : Nat) (text : List Char) :
    Nat → Int → Nat → Option (List TextChunk)
  | 0, _, _ => none
  | fuel + 1, start, cid =>
    if start < (text.length : Int) then
      let content := pySlice text start (start + (chunkSize : Int))
      if hasNonWs content then
        (chunkLoop chunkSize chunkOverlap text fuel
          (start + ((chunkSize : Int) - (chunkOverlap : Int))) (cid + 1)).map
          (⟨content, cid⟩ :: ·)
      else
        chunkLoop chunkSize chunkOverlap text fuel
          (start + ((chunkSize : Int) - (chunkOverlap : Int))) cid
    else
      some []

/-- `DocumentProcessor._chunk_text`.  `text.length + 1` units of fuel are
enough for the loop to exit whenever `chunk_overlap < chunk_size`
(proved below); the result is `none` exactly when the Python loop
diverges. -/
def chunk_text (chunkSize chunkOverlap : Nat) (text : List Char) :
    Option (List TextChunk) :=
  chunkLoop chunkSize chunkOverlap text (text.length + 1) 0 0

/-! ### Chunking lemmas -/

theorem pyResolve_ofNat (len : Nat) (n : Nat) :
    pyResolve len (n : Int) = min len n := by
  simp [pyResolve]

/-- For a non-negative start, the Python slice `text[st:st+w]` is
`(text.drop st).take w`. -/
theorem pySlice_ofNat (text : List Char) (st w : Nat) :
    pySlice text (st : Int) ((st : Int) + (w : Int)) = (text.drop st).take w := by
  have hb : (st : Int) + (w : Int) = ((st + w : Nat) : Int) := by push_cast; ring
  rw [pySlice, hb, pyResolve_ofNat, pyResolve_ofNat]
  rcases le_or_lt text.length st with h | h
  · rw [min_eq_left h, min_eq_left (le_trans h (Nat.le_add_right _ _))]
    simp [List.drop_eq_nil_of_le, h, List.take_of_length_le]
  · rw [min_eq_right (le_of_lt h)]
    rw [List.drop_take]
    refine List.take_eq_take.mpr ?_
    rw [List.length_drop]
    omega

/-- If the loop returns, every emitted chunk has non-whitespace content
(the `if chunk_text.strip()` guard). -/
theorem chunkLoop_hasNonWs (w o : Nat) (text : List Char) :
    ∀ (fuel : Nat) (start : Int) (cid : Nat) (r : List TextChunk),
      chunkLoop w o text fuel start cid = some r →
      ∀ c ∈ r, hasNonWs c.content = true := by
  intro fuel
  induction fuel with
  | zero => intro start cid r h; simp [chunkLoop] at h
  | succ fuel ih =>
    intro start cid r h
    rw [chunkLoop] at h
    split at h
    · set content := pySlice text start (start + (w : Int)) with hc
      by_cases hw : hasNonWs content = true
      · rw [if_pos hw] at h
        rcases Option.map_eq_some'.mp h with ⟨rest, hrest, hr⟩
        subst hr
        intro c hcmem
        rcases List.mem_cons.mp hcmem with hceq | hcm
        · subst hceq; exact hw
        · exact ih _ _ _ hrest c hcm
      · rw [if_neg hw] at h
        exact ih _ _ _ h
    · intro c hcmem
      simp only [Option.some.injEq] at h
      subst h
      simp at hcmem

/-- If the loop returns, the `chunk_id`s of the emitted chunks are the
consecutive integers starting at `cid` (dense numbering over emitted
chunks). -/
theorem chunkLoop_ids (w o : Nat) (text : List Char) :
    ∀ (fuel : Nat) (start : Int) (cid : Nat) (r : List TextChunk),
      chunkLoop w o text fuel start cid = some r →
      r.map TextChunk.chunk_id = List.range' cid r.length := by
  intro fuel
  induction fuel with
  | zero => intro start cid r h; simp [chunkLoop] at h
  | succ fuel ih =>
    intro start cid r h
    rw [chunkLoop] at h
    split at h
    · set content := pySlice text start (start + (w : Int)) with hc
      by_cases hw : hasNonWs content = true
      · rw [if_pos hw] at h
        rcases Option.map_eq_some'.mp h with ⟨rest, hrest, hr⟩
        subst hr
        simp only [List.map_cons, List.length_cons, List.range'_succ]
        exact congrArg (cid :: ·) (ih _ _ _ hrest)
      · rw [if_neg hw] at h
        exact ih _ _ _ h
    · simp only [Option.some.injEq] at h
      subst h
      simp

/-- With `chunk_overlap < chunk_size`, `text.length - start + 1` units of
fuel suffice for the loop to exit. -/
theorem chunkLoop_total (w o : Nat) (text : List Char) (h : o < w) :
    ∀ (fuel : Nat) (st : Nat) (cid : Nat),
      text.length - st < fuel →
      ∃ r, chunkLoop w o text fuel (st : Int) cid = some r := by
  intro fuel
  induction fuel with
  | zero => intro st cid hf; omega
  | succ fuel ih =>
    intro st cid hf
    rw [chunkLoop]
    by_cases hlt : (st : Int) < (text.length : Int)
    · rw [if_pos hlt]
      have hstep : (st : Int) + ((w : Int) - (o : Int)) = ((st + (w - o) : Nat) : Int) := by
        push_cast [Nat.cast_sub (le_of_lt h)]; ring
      have hst : st < text.length := by exact_mod_cast hlt
      have hf' : text.length - (st + (w - o)) < fuel := by omega
      rcases ih (st + (w - o)) (cid + 1) hf' with ⟨r1, hr1⟩
      rcases ih (st + (w - o)) cid hf' with ⟨r2, hr2⟩
      by_cases hw : hasNonWs (pySlice text (st : Int) ((st : Int) + (w : Int))) = true
      · rw [if_pos hw, hstep, hr1]
        exact ⟨_, rfl⟩
      · rw [if_neg hw, hstep]
        exact ⟨_, hr2⟩
    · rw [if_neg hlt]
      exact ⟨[], rfl⟩

/-- Index congruence for list indexing. -/
theorem getElem_idx_congr {α : Type _} (l : List α) {a b : Nat} (h : a = b)
    (ha : a < l.length) : l[a] = l.get ⟨b, h ▸ ha⟩ := by
  subst h; rfl

/-- With `chunk_overlap < chunk_size`, every non-whitespace character of
the input lies in at least one emitted chunk: the chunk emitted from the
last window start `s ≤ p` (windows advance by `chunk_size -
chunk_overlap < chunk_size`, so consecutive windows overlap). -/
theorem chunkLoop_coverage (w o : Nat) (text : List Char) (h : o < w) :
    ∀ (fuel : Nat) (st : Nat) (cid : Nat) (r : List TextChunk),
      chunkLoop w o text fuel (st : Int) cid = some r →
      ∀ p : Nat, st ≤ p → ∀ hp : p < text.length,
      (text.get ⟨p, hp⟩).isWhitespace = false →
      ∃ c ∈ r, ∃ s : Nat, c.content = (text.drop s).take w ∧ s ≤ p ∧ p < s + w := by
  intro fuel
  induction fuel with
  | zero => intro st cid r hsome; simp [chunkLoop] at hsome
  | succ fuel ih =>
    intro st cid r hsome p hstp hp hpw
    rw [chunkLoop] at hsome
    by_cases hlt : (st : Int) < (text.length : Int)
    · rw [if_pos hlt, pySlice_ofNat] at hsome
      have hstep : (st : Int) + ((w : Int) - (o : Int)) = ((st + (w - o) : Nat) : Int) := by
        push_cast [Nat.cast_sub (le_of_lt h)]; ring
      rw [hstep] at hsome
      by_cases hwin : p < st + (w - o)
      · -- the character at p lies in the current window, which is emitted
        have hiw : p - st < w := by omega
        have hil : p - st < ((text.drop st).take w).length := by
          rw [List.length_take, List.length_drop]
          omega
        have hget : ((text.drop st).take w).get ⟨p - st, hil⟩ = text.get ⟨p, hp⟩ := by
          show ((text.drop st).take w)[p - st] = text[p]
          rw [List.getElem_take, List.getElem_drop]
          exact getElem_idx_congr text (by omega) _
        have hnw : hasNonWs ((text.drop st).take w) = true := by
          rw [hasNonWs, List.any_eq_true]
          refine ⟨((text.drop st).take w).get ⟨p - st, hil⟩, List.get_mem _ _ _, ?_⟩
          rw [hget, hpw]
          rfl
        rw [if_pos hnw] at hsome
        rcases Option.map_eq_some'.mp hsome with ⟨rest, _, hr⟩
        subst hr
        exact ⟨⟨(text.drop st).take w, cid⟩, List.mem_cons_self _ _, st, rfl, hstp, by omega⟩
      · -- recurse from the next window start
        have hstp' : st + (w - o) ≤ p := by omega
        by_cases hnw : hasNonWs ((text.drop st).take w) = true
        · rw [if_pos hnw] at hsome
          rcases Option.map_eq_some'.mp hsome with ⟨rest, hrest, hr⟩
          subst hr
          rcases ih _ _ _ hrest p hstp' hp hpw with ⟨c, hcm, s, hcs⟩
          exact ⟨c, List.mem_cons_of_mem _ hcm, s, hcs⟩
        · rw [if_neg hnw] at hsome
          exact ih _ _ _ hsome p hstp' hp hpw
    · rw [if_neg hlt] at hsome
      have : text.length ≤ st := by exact_mod_cast not_lt.mp hlt
      omega

/-- With `chunk_size ≤ chunk_overlap` and a nonempty input, the
`_chunk_text` loop never terminates: `start` is stepped by
`chunk_size - chunk_overlap ≤ 0`, so the condition
`start < len(text)` stays true forever and no amount of fuel makes the
loop exit (the missing fail-fast validation of the spec). -/
theorem chunkLoop_diverges (w o : Nat) (text : List Char)
    (hwo : w ≤ o) (hne : text ≠ []) :
    ∀ (fuel : Nat) (start : Int) (cid : Nat), start ≤ 0 →
      chunkLoop w o text fuel start cid = none := by
  intro fuel
  induction fuel with
  | zero => intro start cid _; rfl
  | succ fuel ih =>
    intro start cid hstart
    have hlen : 0 < text.length := List.length_pos.mpr hne
    have hlt : start < (text.length : Int) := by
      have : (0 : Int) < (text.length : Int) := by exact_mod_cast hlen
      omega
    have hstep : start + ((w : Int) - (o : Int)) ≤ 0 := by
      have : (w : Int) ≤ (o : Int) := by exact_mod_cast hwo
      omega
    rw [chunkLoop, if_pos hlt]
    rw [ih _ (cid + 1) hstep, ih _ cid hstep]
    simp

/-- C4.  The claim says chunking with `chunk_overlap ≥ chunk_size` fails
fast with a validation error.  The code has no such validation:
`DocumentProcessor._chunk_text` (document_processor.py, lines 168-196)
enters a non-terminating, chunk-duplicating loop.  At the failing input
`chunk_size = 1`, `chunk_overlap = 1`, text `"a"`, the loop never
terminates — no amount of fuel produces a result. -/
theorem c4_chunk_text_overlap_ge_window_diverges_instead_of_failing_fast :
    (∀ fuel cid, chunkLoop 1 1 "a".toList fuel 0 cid = none) ∧
    chunk_text 1 1 "a".toList = none := by
  constructor
  · intro fuel cid
    exact chunkLoop_diverges 1 1 _ (le_refl 1) (by decide) fuel 0 cid (le_refl 0)
  · exact chunkLoop_diverges 1 1 _ (le_refl 1) (by decide) _ 0 0 (le_refl 0)

/-- C5.  With `chunk_overlap < chunk_size` the chunking loop terminates
and (a) every emitted chunk has non-whitespace content, (b) chunk ids
are assigned densely (`0, 1, 2, …`) over the emitted chunks, and (c)
every non-whitespace character of the input is covered by at least one
emitted chunk, which is the window `(text.drop s).take chunk_size` for
some window start `s` with `s ≤ p < s + chunk_size`. -/
theorem c5_chunk_text_covers_nonws_and_emits_no_blank_chunk
    (chunkSize chunkOverlap : Nat) (text : List Char)
    (h : chunkOverlap < chunkSize) :
    ∃ chunks, chunk_text chunkSize chunkOverlap text = some chunks ∧
      (∀ c ∈ chunks, hasNonWs c.content = true) ∧
      chunks.map TextChunk.chunk_id = List.range chunks.length ∧
      ∀ p : Nat, ∀ hp : p < text.length,
        (text.get ⟨p, hp⟩).isWhitespace = false →
        ∃ c ∈ chunks, ∃ s : Nat,
          c.content = (text.drop s).take chunkSize ∧ s ≤ p ∧ p < s + chunkSize := by
  have h0 : ((0 : Nat) : Int) = (0 : Int) := rfl
  rcases chunkLoop_total chunkSize chunkOverlap text h (text.length + 1) 0 0 (by omega)
    with ⟨r, hr⟩
  rw [h0] at hr
  refine ⟨r, hr, chunkLoop_hasNonWs _ _ _ _ _ _ _ hr, ?_, ?_⟩
  · rw [List.range_eq_range']
    exact chunkLoop_ids _ _ _ _ _ _ _ hr
  · intro p hp hpw
    have := chunkLoop_coverage chunkSize chunkOverlap text h (text.length + 1) 0 0 r
      (by rw [h0]; exact hr) p (Nat.zero_le p) hp hpw
    exact this

/-- C5 witness at `chunk_size = 3`, `chunk_overlap = 1`, text `"ab cd"`. -/
theorem c5_chunk_text_covers_nonws_witness :
    1 < 3 ∧
    (∃ chunks, chunk_text 3 1 "ab cd".toList = some chunks ∧
      (∀ c ∈ chunks, hasNonWs c.content = true) ∧
      chunks.map TextChunk.chunk_id = List.range chunks.length ∧
      ∀ p : Nat, ∀ hp : p < "ab cd".toList.length,
        ("ab cd".toList.get ⟨p, hp⟩).isWhitespace = false →
        ∃ c ∈ chunks, ∃ s : Nat,
          c.content = ("ab cd".toList.drop s).take 3 ∧ s ≤ p ∧ p < s + 3) :=
  ⟨by decide,
   c5_chunk_text_covers_nonws_and_emits_no_blank_chunk 3 1 "ab cd".toList (by decide)⟩

/-! ## utils/token_counter.py

`count_tokens(text)` is `len(text.split())`: the number of maximal runs
of non-whitespace characters (Python's `str.split()` with no argument
splits on whitespace runs and drops empty strings; the empty string has
zero tokens). -/

/-- Word-count recursion: `inWord` records whether the previous
character was part of a word. -/
def countTokensGo : List Char → Bool → Nat
  | [], _ => 0
  | c :: rest, inWord =>
    if c.isWhitespace then countTokensGo rest false
    else (if inWord then 0 else 1) + countTokensGo rest true

/-- `count_tokens` from `backend/app/utils/token_counter.py`. -/
def count_tokens (s : String) : Nat :=
  countTokensGo s.toList false

/-! ## SHA-256 and DocumentProcessor.generate_document_id

`generate_document_id` (document_processor.py, lines 22-26) reads the
file's raw bytes and returns the first 16 characters of
`hashlib.sha256(bytes).hexdigest()`.  SHA-256 is implemented here over
`List Nat` (byte values `0..255`) with explicit `% 2^32` arithmetic. -/

/-- 32-bit right rotation (for `x < 2^32`, `0 < n < 32`). -/
def rotr32 (n x : Nat) : Nat :=
  (x >>> n) ||| ((x <<< (32 - n)) % 4294967296)

/-- The SHA-256 round constants (decimal). -/
def shaK : List Nat :=
  [1116352408, 1899447441, 3049323471, 3921009573, 961987163, 1508970993,
   2453635748, 2870763221, 3624381080, 310598401, 607225278, 1426881987,
   1925078388, 2162078206, 2614888103, 3248222580, 3835390401, 4022224774,
   264347078, 604807628, 770255983, 1249150122, 1555081692, 1996064986,
   2554220882, 2821834349, 2952996808, 3210313671, 3336571891, 3584528711,
   113926993, 338241895, 666307205, 773529912, 1294757372, 1396182291,
   1695183700, 1986661051, 2177026350, 2456956037, 2730485921, 2820302411,
   3259730800, 3345764771, 3516065817, 3600352804, 4094571909, 275423344,
   430227734, 506948616, 659060556, 883997877, 958139571, 1322822218,
   1537002063, 1747873779, 1955562222, 2024104815, 2227730452, 2361852424,
   2428436474, 2756734187, 3204031479, 3329325298]

/-- The eight 32-bit hash words. -/
structure Hash8 where
  a : Nat
  b : Nat
  c : Nat
  d : Nat
  e : Nat
  f : Nat
  g : Nat
  h : Nat
  deriving Repr, DecidableEq

/-- SHA-256 initial hash value (decimal). -/
def shaInit : Hash8 :=
  ⟨1779033703, 3144134277, 1013904242, 2773480762,
   1359893119, 2600822924, 528734635, 1541459225⟩

/-- One SHA-256 compression round on the working variables. -/
def shaRound (st : Hash8) (kw : Nat × Nat) : Hash8 :=
  let S1 := (rotr32 6 st.e).xor ((rotr32 11 st.e).xor (rotr32 25 st.e))
  let ch := (st.e.land st.f).xor ((st.e.xor 4294967295).land st.g)
  let temp1 := (st.h + S1 + ch + kw.1 + kw.2) % 4294967296
  let S0 := (rotr32 2 st.a).xor ((rotr32 13 st.a).xor (rotr32 22 st.a))
  let maj := (st.a.land st.b).xor ((st.a.land st.c).xor (st.b.land st.c))
  let temp2 := (S0 + maj) % 4294967296
  ⟨(temp1 + temp2) % 4294967296, st.a, st.b, st.c,
   (st.d + temp1) % 4294967296, st.e, st.f, st.g⟩

/-- Message-schedule extension: appends `n` further words. -/
def shaExtend : Nat → List Nat → List Nat
  | 0, ws => ws
  | n + 1, ws =>
    let i := ws.length
    let s0 := (rotr32 7 (ws.getD (i - 15) 0)).xor
      ((rotr32 18 (ws.getD (i - 15) 0)).xor ((ws.getD (i - 15) 0) >>> 3))
    let s1 := (rotr32 17 (ws.getD (i - 2) 0)).xor
      ((rotr32 19 (ws.getD (i - 2) 0)).xor ((ws.getD (i - 2) 0) >>> 10))
    let next := (ws.getD (i - 16) 0 + s0 + ws.getD (i - 7) 0 + s1) % 4294967296
    shaExtend n (ws ++ [next])

/-- The 64-word message schedule of one 64-byte block. -/
def shaSchedule (block : List Nat) : List Nat :=
  let w0 := (List.range 16).map (fun i =>
    (block.getD (4 * i) 0) <<< 24 + (block.getD (4 * i + 1) 0) <<< 16 +
    (block.getD (4 * i + 2) 0) <<< 8 + block.getD (4 * i + 3) 0)
  shaExtend 48 w0

/-- SHA-256 compression of one block into the hash state. -/
def shaCompress (hs : Hash8) (block : List Nat) : Hash8 :=
  let ws := shaSchedule block
  let t := (shaK.zip ws).foldl shaRound hs
  ⟨(hs.a + t.a) % 4294967296, (hs.b + t.b) % 4294967296,
   (hs.c + t.c) % 4294967296, (hs.d + t.d) % 4294967296,
   (hs.e + t.e) % 4294967296, (hs.f + t.f) % 4294967296,
   (hs.g + t.g) % 4294967296, (hs.h + t.h) % 4294967296⟩

/-- SHA-256 padding: a `0x80` byte, zeros to 56 mod 64, then the bit
length as 8 big-endian bytes. -/
def shaPad (msg : List Nat) : List Nat :=
  let len := msg.length
  let zeros := (120 - ((len + 1) % 64)) % 64
  let bitLen := len * 8
  msg ++ [0x80] ++ List.replicate zeros 0 ++
    [(bitLen >>> 56) % 256, (bitLen >>> 48) % 256, (bitLen >>> 40) % 256,
     (bitLen >>> 32) % 256, (bitLen >>> 24) % 256, (bitLen >>> 16) % 256,
     (bitLen >>> 8) % 256, bitLen % 256]

/-- Split the padded message into 64-byte blocks. -/
def shaBlocks (padded : List Nat) : List (List Nat) :=
  (List.range (padded.length / 64)).map (fun i => (padded.drop (64 * i)).take 64)

/-- Lowercase hexadecimal digit. -/
def hexDigit (n : Nat) : Char :=
  if n < 10 then Char.ofNat (48 + n) else Char.ofNat (87 + n)

/-- The eight lowercase hex characters of one 32-bit word. -/
def wordHexChars (w : Nat) : List Char :=
  [hexDigit ((w >>> 28) % 16), hexDigit ((w >>> 24) % 16),
   hexDigit ((w >>> 20) % 16), hexDigit ((w >>> 16) % 16),
   hexDigit ((w >>> 12) % 16), hexDigit ((w >>> 8) % 16),
   hexDigit ((w >>> 4) % 16), hexDigit (w % 16)]

/-- `hashlib.sha256(bytes).hexdigest()` as a character list. -/
def sha256HexChars (msg : List Nat) : List Char :=
  let hs := (shaBlocks (shaPad msg)).foldl shaCompress shaInit
  wordHexChars hs.a ++ wordHexChars hs.b ++ wordHexChars hs.c ++
  wordHexChars hs.d ++ wordHexChars hs.e ++ wordHexChars hs.f ++
  wordHexChars hs.g ++ wordHexChars hs.h

/-- A file as `generate_document_id` sees it: a path (used only to open
the file) and the raw bytes read from it. -/
structure FileOnDisk where
  path : String
  bytes : List Nat

/-- `DocumentProcessor.generate_document_id`: the first 16 hex
characters of the SHA-256 digest of the file's raw bytes. -/
def generate_document_id (f : FileOnDisk) : String :=
  String.mk ((sha256HexChars f.bytes).take 16)

/-- The SHA-256 hexdigest always has 64 characters. -/
theorem sha256HexChars_length (msg : List Nat) :
    (sha256HexChars msg).length = 64 := by
  simp [sha256HexChars, wordHexChars]

/-- C6.  The document id is a pure function of the file's raw bytes:
ingesting identical bytes under different names or paths yields the
identical id, and the id is the 16-character prefix of the SHA-256
hexdigest of the bytes. -/
theorem c6_document_id_is_pure_function_of_bytes (f1 f2 : FileOnDisk)
    (h : f1.bytes = f2.bytes) :
    generate_document_id f1 = generate_document_id f2 ∧
    generate_document_id f1 = String.mk ((sha256HexChars f1.bytes).take 16) ∧
    (generate_document_id f1).length = 16 := by
  refine ⟨by rw [generate_document_id, generate_document_id, h], rfl, ?_⟩
  show (String.mk ((sha256HexChars f1.bytes).take 16)).length = 16
  have : (String.mk ((sha256HexChars f1.bytes).take 16)).length =
      ((sha256HexChars f1.bytes).take 16).length := rfl
  rw [this, List.length_take, sha256HexChars_length]
  rfl

/-- C6 witness: the same three bytes under two different paths. -/
theorem c6_document_id_witness :
    (FileOnDisk.mk "/data/uploads/documents/a.txt" [97, 98, 99]).bytes =
      (FileOnDisk.mk "/data/uploads/pdfs/b.pdf" [97, 98, 99]).bytes ∧
    (generate_document_id ⟨"/data/uploads/documents/a.txt", [97, 98, 99]⟩ =
       generate_document_id ⟨"/data/uploads/pdfs/b.pdf", [97, 98, 99]⟩ ∧
     generate_document_id ⟨"/data/uploads/documents/a.txt", [97, 98, 99]⟩ =
       String.mk ((sha256HexChars [97, 98, 99]).take 16) ∧
     (generate_document_id ⟨"/data/uploads/documents/a.txt", [97, 98, 99]⟩).length = 16) :=
  ⟨rfl, c6_document_id_is_pure_function_of_bytes _ _ rfl⟩

/-! ## Chroma metadata and where-clauses

`VectorStore` (vector_store.py) stores each chunk with a metadata
dictionary whose values are strings, integers or booleans, and filters
queries with ChromaDB where-clauses.  The code uses two condition
shapes: direct equality (`{"document_id": id}`) and negation
(`{"chunk_type": {"$ne": "image"}}`).  A multi-key where-clause is a
conjunction. -/

/-- A metadata value. -/
inductive MVal where
  | str (s : String)
  | int (n : Int)
  | bool (b : Bool)
  deriving Repr, DecidableEq

/-- A metadata dictionary. -/
abbrev Metadata := List (String × MVal)

/-- Dictionary lookup (first binding wins, as in a Python dict where
keys are unique). -/
def metaLookup (md : Metadata) (k : String) : Option MVal :=
  (md.find? (fun p => p.1 == k)).map (·.2)

/-- One where-clause condition: equality or `$ne`. -/
inductive WhereCond where
  | eq (v : MVal)
  | ne (v : MVal)
  deriving Repr, DecidableEq

/-- A where-clause: a dictionary of conditions, interpreted as a
conjunction. -/
abbrev WhereClause := List (String × WhereCond)

/-- Whether a metadata dictionary satisfies one condition.  A record
missing the key matches neither `eq` nor `$ne` (Chroma filters only
records that carry the field). -/
def matchesCond (md : Metadata) (k : String) : WhereCond → Bool
  | .eq v => metaLookup md k == some v
  | .ne v =>
    match metaLookup md k with
    | some x => x != v
    | none => false

/-- Whether a metadata dictionary satisfies a whole where-clause. -/
def matchesWhere (md : Metadata) (wc : WhereClause) : Bool :=
  wc.all (fun p => matchesCond md p.1 p.2)

/-- Python dict assignment `wc[k] = v`: replace the binding if the key
is present, append it otherwise. -/
def setKey (wc : WhereClause) (k : String) (v : WhereCond) : WhereClause :=
  if wc.any (fun p => p.1 == k) then
    wc.map (fun p => if p.1 == k then (k, v) else p)
  else wc ++ [(k, v)]

/-- The effective where-clause built by `VectorStore.query`
(vector_store.py, lines 88-99): the caller's filter if nonempty, with
`chunk_type != image` forced in when `include_images` is false. -/
def buildWhereClause (filter_dict : Option WhereClause)
    (include_images : Bool) : Option WhereClause :=
  let whereClause : Option WhereClause :=
    match filter_dict with
    | some f => if 0 < f.length then some f else none
    | none => none
  if !include_images then
    match whereClause with
    | some wc => some (setKey wc "chunk_type" (.ne (.str "image")))
    | none => some [("chunk_type", .ne (.str "image"))]
  else whereClause

/-! ## VectorStore

The ChromaDB collection is a list of records `(id, embedding, document,
metadata)`; the embedding type `E` and the distance function are
parameters (the CLIP/sentence-transformer models and Chroma's metric
live outside the embedded code). -/

/-- One record of the Chroma collection. -/
structure StoredRecord (E : Type) where
  rid : String
  embedding : E
  document : String
  metadata : Metadata

/-- One formatted retrieval result (vector_store.py, lines 118-124). -/
structure RetrievedDoc where
  content : String
  metadata : Metadata
  relevance_score : ℚ
  chunk_id : String
  document_id : MVal

namespace VectorStore

/-- The raw Chroma answer inside `VectorStore.query`: the records that
satisfy the effective where-clause, ordered by increasing distance to
the query embedding, truncated to `n_results = top_k`. -/
def queryRaw {E : Type} (col : List (StoredRecord E)) (dist : E → ℚ)
    (top_k : Nat) (filter_dict : Option WhereClause)
    (include_images : Bool) : List (StoredRecord E) :=
  let wc := buildWhereClause filter_dict include_images
  let cands := match wc with
    | some w => col.filter (fun r => matchesWhere r.metadata w)
    | none => col
  (List.insertionSort (fun r1 r2 => dist r1.embedding ≤ dist r2.embedding)
    cands).take top_k

/-- `VectorStore.query` (vector_store.py, lines 84-132): embeds the
query text, queries the collection and formats each hit with
`relevance_score = 1 - distance`. -/
def query {E : Type} (embedQuery : String → E) (distFn : E → E → ℚ)
    (col : List (StoredRecord E)) (query_text : String) (top_k : Nat)
    (filter_dict : Option WhereClause) (include_images : Bool) :
    List RetrievedDoc :=
  let qe := embedQuery query_text
  (queryRaw col (fun e => distFn qe e) top_k filter_dict include_images).map
    (fun r =>
      { content := r.document
        metadata := r.metadata
        relevance_score := 1 - distFn qe r.embedding
        chunk_id := r.rid
        document_id := (metaLookup r.metadata "document_id").getD (.str "unknown") })

/-- `VectorStore.delete_document` (vector_store.py, lines 134-153):
collect the ids of the chunks whose metadata `document_id` equals the
argument, delete that batch, return whether anything matched. -/
def delete_document {E : Type} (col : List (StoredRecord E))
    (document_id : String) : List (StoredRecord E) × Bool :=
  let ids := (col.filter (fun r =>
    metaLookup r.metadata "document_id" == some (.str document_id))).map (·.rid)
  if ids.isEmpty then (col, false)
  else (col.filter (fun r => !(ids.contains r.rid)), true)

end VectorStore

/-! ### Vector store lemmas -/

/-- With `include_images = False`, the effective where-clause always
exists and always contains the `chunk_type != image` condition,
whatever filter the caller supplied. -/
theorem buildWhereClause_false_mem (filter_dict : Option WhereClause) :
    ∃ wc, buildWhereClause filter_dict false = some wc ∧
      ("chunk_type", WhereCond.ne (.str "image")) ∈ wc := by
  cases filter_dict with
  | none => exact ⟨_, rfl, by simp⟩
  | some f =>
    by_cases hf : 0 < f.length
    · refine ⟨setKey f "chunk_type" (.ne (.str "image")), ?_, ?_⟩
      · simp only [buildWhereClause, if_pos hf, Bool.not_false, if_pos]
      · rw [setKey]
        by_cases ha : f.any (fun p => p.1 == "chunk_type") = true
        · rw [if_pos ha]
          rcases List.any_eq_true.mp ha with ⟨p, hp, hpk⟩
          exact List.mem_map.mpr ⟨p, hp, by rw [if_pos hpk]⟩
        · rw [if_neg ha]
          exact List.mem_append_right _ (by simp)
    · refine ⟨[("chunk_type", .ne (.str "image"))], ?_, by simp⟩
      simp only [buildWhereClause, if_neg hf, Bool.not_false, if_pos]

/-- C7.  For every collection state, query text, `top_k` and caller
filter, a chunk returned by `query` with `include_images = False` never
has `chunk_type` metadata equal to `"image"`. -/
theorem c7_query_without_images_never_returns_image_chunk {E : Type}
    (embedQuery : String → E) (distFn : E → E → ℚ)
    (col : List (StoredRecord E)) (query_text : String) (top_k : Nat)
    (filter_dict : Option WhereClause) (d : RetrievedDoc)
    (hd : d ∈ VectorStore.query embedQuery distFn col query_text top_k
      filter_dict false) :
    metaLookup d.metadata "chunk_type" ≠ some (.str "image") := by
  simp only [VectorStore.query] at hd
  rcases List.mem_map.mp hd with ⟨r, hr, hrd⟩
  rcases buildWhereClause_false_mem filter_dict with ⟨wc, hwc, hmem⟩
  simp only [VectorStore.queryRaw, hwc] at hr
  have hr2 : r ∈ col.filter (fun r => matchesWhere r.metadata wc) :=
    (List.perm_insertionSort _ _).mem_iff.mp (List.take_subset _ _ hr)
  have hmatch : matchesWhere r.metadata wc = true := (List.mem_filter.mp hr2).2
  have hcond : matchesCond r.metadata "chunk_type" (.ne (.str "image")) = true :=
    List.all_eq_true.mp hmatch _ hmem
  intro hcontra
  have hdm : d.metadata = r.metadata := by rw [← hrd]
  rw [hdm] at hcontra
  simp [matchesCond, hcontra] at hcond

/-- C7 witness: a one-record collection holding a text chunk; the query
returns it and the theorem applies to it. -/
theorem c7_query_without_images_witness :
    ((⟨"hello", [("chunk_type", MVal.str "text")], 1 - 0, "d1_0",
        MVal.str "unknown"⟩ : RetrievedDoc) ∈
      VectorStore.query (fun _ => ()) (fun _ _ => (0 : ℚ))
        [⟨"d1_0", (), "hello", [("chunk_type", MVal.str "text")]⟩] "q" 5
        none false) ∧
    metaLookup (⟨"hello", [("chunk_type", MVal.str "text")], 1 - 0, "d1_0",
        MVal.str "unknown"⟩ : RetrievedDoc).metadata "chunk_type" ≠
      some (.str "image") := by
  have hmem : (⟨"hello", [("chunk_type", MVal.str "text")], 1 - 0, "d1_0",
      MVal.str "unknown"⟩ : RetrievedDoc) ∈
      VectorStore.query (fun _ => ()) (fun _ _ => (0 : ℚ))
        [⟨"d1_0", (), "hello", [("chunk_type", MVal.str "text")]⟩] "q" 5
        none false :=
    List.mem_singleton.mpr rfl
  exact ⟨hmem, c7_query_without_images_never_returns_image_chunk
    (fun _ => ()) (fun _ _ => (0 : ℚ)) _ "q" 5 none _ hmem⟩

/-- The raw query answer never exceeds `top_k` entries. -/
theorem queryRaw_length_le {E : Type} (col : List (StoredRecord E))
    (dist : E → ℚ) (top_k : Nat) (filter_dict : Option WhereClause)
    (include_images : Bool) :
    (VectorStore.queryRaw col dist top_k filter_dict include_images).length ≤ top_k := by
  simp only [VectorStore.queryRaw]
  exact List.length_take_le _ _

/-- The raw query answer is ordered by non-decreasing distance. -/
theorem queryRaw_sorted {E : Type} (col : List (StoredRecord E))
    (dist : E → ℚ) (top_k : Nat) (filter_dict : Option WhereClause)
    (include_images : Bool) :
    List.Pairwise (fun r1 r2 : StoredRecord E => dist r1.embedding ≤ dist r2.embedding)
      (VectorStore.queryRaw col dist top_k filter_dict include_images) := by
  simp only [VectorStore.queryRaw]
  refine List.Pairwise.sublist (List.take_sublist _ _) ?_
  haveI : IsTotal (StoredRecord E)
      (fun r1 r2 => dist r1.embedding ≤ dist r2.embedding) :=
    ⟨fun a b => le_total _ _⟩
  haveI : IsTrans (StoredRecord E)
      (fun r1 r2 => dist r1.embedding ≤ dist r2.embedding) :=
    ⟨fun a b c hab hbc => le_trans hab hbc⟩
  exact List.sorted_insertionSort _ _

/-- C8.  Every query returns at most `top_k` chunks, each returned
relevance score is `1 - distance` of the corresponding raw hit, and the
scores are monotonically non-increasing along the returned list. -/
theorem c8_query_scores_are_one_minus_distance_and_non_increasing {E : Type}
    (embedQuery : String → E) (distFn : E → E → ℚ)
    (col : List (StoredRecord E)) (query_text : String) (top_k : Nat)
    (filter_dict : Option WhereClause) (include_images : Bool) :
    (VectorStore.query embedQuery distFn col query_text top_k filter_dict
      include_images).length ≤ top_k ∧
    (VectorStore.query embedQuery distFn col query_text top_k filter_dict
      include_images).map RetrievedDoc.relevance_score =
      (VectorStore.queryRaw col (fun e => distFn (embedQuery query_text) e)
        top_k filter_dict include_images).map
        (fun r => 1 - distFn (embedQuery query_text) r.embedding) ∧
    List.Pairwise (fun a b => b ≤ a)
      ((VectorStore.query embedQuery distFn col query_text top_k filter_dict
        include_images).map RetrievedDoc.relevance_score) := by
  have hq : VectorStore.query embedQuery distFn col query_text top_k filter_dict
      include_images =
      (VectorStore.queryRaw col (fun e => distFn (embedQuery query_text) e)
        top_k filter_dict include_images).map
        (fun r =>
          { content := r.document
            metadata := r.metadata
            relevance_score := 1 - distFn (embedQuery query_text) r.embedding
            chunk_id := r.rid
            document_id := (metaLookup r.metadata "document_id").getD
              (.str "unknown") }) := rfl
  have hmap : (VectorStore.query embedQuery distFn col query_text top_k
      filter_dict include_images).map RetrievedDoc.relevance_score =
      (VectorStore.queryRaw col (fun e => distFn (embedQuery query_text) e)
        top_k filter_dict include_images).map
        (fun r => 1 - distFn (embedQuery query_text) r.embedding) := by
    rw [hq, List.map_map]
    rfl
  refine ⟨?_, hmap, ?_⟩
  · rw [hq, List.length_map]
    exact queryRaw_length_le _ _ _ _ _
  · rw [hmap]
    refine List.pairwise_map.mpr ?_
    refine (queryRaw_sorted col (fun e => distFn (embedQuery query_text) e)
      top_k filter_dict include_images).imp ?_
    intro a b hab
    linarith

/-- On a collection with pairwise-distinct chunk ids, a record's id is
in the deletion batch exactly when its own `document_id` metadata
matches. -/
theorem delete_batch_pointwise {E : Type} (col : List (StoredRecord E))
    (document_id : String)
    (hnodup : (col.map StoredRecord.rid).Nodup) :
    ∀ r ∈ col,
      ((col.filter (fun r => metaLookup r.metadata "document_id" ==
          some (.str document_id))).map (·.rid)).contains r.rid =
        (metaLookup r.metadata "document_id" == some (.str document_id)) := by
  intro r hr
  by_cases hm : metaLookup r.metadata "document_id" = some (.str document_id)
  · rw [hm]
    simp only [beq_self_eq_true]
    have hmm : r.rid ∈ (col.filter (fun r => metaLookup r.metadata "document_id" ==
        some (.str document_id))).map (·.rid) :=
      List.mem_map.mpr ⟨r, List.mem_filter.mpr ⟨hr, by rw [hm]; simp⟩, rfl⟩
    simpa [List.contains, List.elem_iff] using hmm
  · have hbeq : (metaLookup r.metadata "document_id" ==
        some (MVal.str document_id)) = false := beq_eq_false_iff_ne.mpr hm
    rw [hbeq]
    by_contra hcon
    have hcontains : ((col.filter (fun r => metaLookup r.metadata "document_id" ==
        some (.str document_id))).map (·.rid)).contains r.rid = true := by
      revert hcon
      cases ((col.filter (fun r => metaLookup r.metadata "document_id" ==
        some (.str document_id))).map (·.rid)).contains r.rid <;> simp
    have hmem2 : r.rid ∈ (col.filter (fun r => metaLookup r.metadata "document_id" ==
        some (.str document_id))).map (·.rid) := by
      simpa [List.contains, List.elem_iff] using hcontains
    rcases List.mem_map.mp hmem2 with ⟨r2, hr2, hrid⟩
    have hr2col : r2 ∈ col := (List.mem_filter.mp hr2).1
    have : r2 = r := List.inj_on_of_nodup_map hnodup hr2col hr hrid
    subst this
    exact hm (by simpa using (List.mem_filter.mp hr2).2)

/-- C9.  On a collection with pairwise-distinct chunk ids,
`delete_document` returns true exactly when some chunk carries the
given `document_id`, removes exactly the chunks whose metadata
`document_id` equals the argument, leaves every other document's chunk
count unchanged, and a second delete of the same id returns false. -/
theorem c9_delete_document_removes_exactly_matching_chunks {E : Type}
    (col : List (StoredRecord E)) (document_id : String)
    (hnodup : (col.map StoredRecord.rid).Nodup) :
    (VectorStore.delete_document col document_id).2 =
      col.any (fun r => metaLookup r.metadata "document_id" ==
        some (.str document_id)) ∧
    (VectorStore.delete_document col document_id).1 =
      col.filter (fun r => !(metaLookup r.metadata "document_id" ==
        some (.str document_id))) ∧
    (∀ other : String, other ≠ document_id →
      ((VectorStore.delete_document col document_id).1.filter
          (fun r => metaLookup r.metadata "document_id" ==
            some (.str other))).length =
        (col.filter (fun r => metaLookup r.metadata "document_id" ==
          some (.str other))).length) ∧
    (VectorStore.delete_document
      (VectorStore.delete_document col document_id).1 document_id).2 = false := by
  have hpt := delete_batch_pointwise col document_id hnodup
  by_cases hid : ((col.filter (fun r => metaLookup r.metadata "document_id" ==
      some (.str document_id))).map (·.rid)).isEmpty = true
  · -- nothing matches: the collection is unchanged and both calls return false
    have hnil : col.filter (fun r => metaLookup r.metadata "document_id" ==
        some (.str document_id)) = [] :=
      List.map_eq_nil.mp (List.isEmpty_iff.mp hid)
    have hnomatch : ∀ r ∈ col, ¬(metaLookup r.metadata "document_id" ==
        some (.str document_id)) = true := List.filter_eq_nil.mp hnil
    have hdel : VectorStore.delete_document col document_id = (col, false) := by
      rw [VectorStore.delete_document, if_pos hid]
    rw [hdel]
    refine ⟨?_, ?_, ?_, ?_⟩
    · simp only []
      symm
      rw [← Bool.not_eq_true]
      intro hany
      rcases List.any_eq_true.mp hany with ⟨r, hr, hrm⟩
      exact hnomatch r hr hrm
    · simp only []
      symm
      refine List.filter_eq_self.mpr ?_
      intro r hr
      simp [hnomatch r hr]
    · intro other _
      rfl
    · simp only []
      rw [VectorStore.delete_document, if_pos hid]
  · -- some chunks match: they are removed, everything else is untouched
    have hdel : VectorStore.delete_document col document_id =
        (col.filter (fun r => !(((col.filter (fun r =>
          metaLookup r.metadata "document_id" == some (.str document_id))).map
            (·.rid)).contains r.rid)), true) := by
      rw [VectorStore.delete_document, if_neg hid]
    have hfilter : col.filter (fun r => !(((col.filter (fun r =>
        metaLookup r.metadata "document_id" == some (.str document_id))).map
          (·.rid)).contains r.rid)) =
        col.filter (fun r => !(metaLookup r.metadata "document_id" ==
          some (.str document_id))) := by
      refine List.filter_congr ?_
      intro r hr
      rw [hpt r hr]
    have hne : col.filter (fun r => metaLookup r.metadata "document_id" ==
        some (.str document_id)) ≠ [] := by
      intro hcon
      rw [hcon] at hid
      simp at hid
    refine ⟨?_, ?_, ?_, ?_⟩
    · rw [hdel]
      symm
      refine List.any_eq_true.mpr ?_
      rcases List.exists_mem_of_ne_nil _ hne with ⟨r, hrmem⟩
      rcases List.mem_filter.mp hrmem with ⟨hrcol, hrm⟩
      exact ⟨r, hrcol, hrm⟩
    · rw [hdel]
      exact hfilter
    · intro other hother
      rw [hdel]
      simp only []
      rw [hfilter, List.filter_filter]
      refine congrArg List.length (List.filter_congr ?_)
      intro r _
      by_cases hro : metaLookup r.metadata "document_id" = some (.str other)
      · have h1 : (metaLookup r.metadata "document_id" ==
            some (MVal.str other)) = true := by rw [hro]; simp
        have h2 : (metaLookup r.metadata "document_id" ==
            some (MVal.str document_id)) = false := by
          refine beq_eq_false_iff_ne.mpr ?_
          rw [hro]
          intro hcon
          exact hother (by injection hcon with h3; injection h3)
        rw [h1, h2]
        rfl
      · have h1 : (metaLookup r.metadata "document_id" ==
            some (MVal.str other)) = false := beq_eq_false_iff_ne.mpr hro
        rw [h1]
        rfl
    · rw [hdel]
      simp only []
      rw [hfilter]
      have hnil2 : ((col.filter (fun r => !(metaLookup r.metadata "document_id" ==
          some (.str document_id)))).filter (fun r =>
            metaLookup r.metadata "document_id" == some (.str document_id))) = [] := by
        rw [List.filter_filter]
        have : ∀ r ∈ col, ((metaLookup r.metadata "document_id" ==
            some (MVal.str document_id)) &&
            !(metaLookup r.metadata "document_id" ==
              some (MVal.str document_id))) = (fun _ => false) r := by
          intro r _
          exact Bool.and_not_self _
        rw [List.filter_congr this, List.filter_false]
      rw [VectorStore.delete_document, if_pos (by rw [hnil2]; rfl)]

/-- A tiny two-document collection used to instantiate vector-store
theorems on concrete inputs. -/
def exampleCol : List (StoredRecord Unit) :=
  [⟨"aaaa_0", (), "x", [("document_id", MVal.str "aaaa")]⟩,
   ⟨"bbbb_0", (), "y", [("document_id", MVal.str "bbbb")]⟩]

/-- C9 witness: deleting document `"aaaa"` from the two-document
collection. -/
theorem c9_delete_document_witness :
    (exampleCol.map StoredRecord.rid).Nodup ∧
    ((VectorStore.delete_document exampleCol "aaaa").2 =
        exampleCol.any (fun r => metaLookup r.metadata "document_id" ==
          some (.str "aaaa")) ∧
      (VectorStore.delete_document exampleCol "aaaa").1 =
        exampleCol.filter (fun r => !(metaLookup r.metadata "document_id" ==
          some (.str "aaaa"))) ∧
      (∀ other : String, other ≠ "aaaa" →
        ((VectorStore.delete_document exampleCol "aaaa").1.filter
            (fun r => metaLookup r.metadata "document_id" ==
              some (.str other))).length =
          (exampleCol.filter (fun r => metaLookup r.metadata "document_id" ==
            some (.str other))).length) ∧
      (VectorStore.delete_document
        (VectorStore.delete_document exampleCol "aaaa").1 "aaaa").2 = false) :=
  ⟨by decide,
   c9_delete_document_removes_exactly_matching_chunks exampleCol "aaaa" (by decide)⟩

/-! ## DocumentProcessor.process_pdf_file

`document_processor.py`, lines 92-166.  A PDF is a list of pages; each
page carries extractable text and a list of embedded images.  An
embedded image is `some payload` when extraction and conversion succeed
(the base64 payload) and `none` when any step raises — the handler logs
and `continue`s, so a corrupt image is skipped.  Note that the code
sets `has_images = True` for every *listed* image, before the `try`
block that may fail. -/

/-- The document `file_type` values of `models.py`. -/
inductive FileType where
  | text
  | image
  | pdf
  | mixed
  deriving Repr, DecidableEq

/-- One page of a PDF as `process_pdf_file` consumes it. -/
structure PdfPage where
  text : List Char
  images : List (Option String)

/-- One chunk emitted by `process_pdf_file`. -/
structure PdfChunk where
  content : String
  chunk_type : String
  page_number : Nat
  chunk_id : Option Nat
  image_index : Option Nat
  image_data : Option String
  deriving Repr, DecidableEq

/-- The page loop of `process_pdf_file`: accumulates chunks and the
`has_text` / `has_images` flags.  `none` if text chunking diverges. -/
def processPdfPages (chunkSize chunkOverlap : Nat) (file_name : String) :
    List PdfPage → Nat → Bool → Bool → Option (List PdfChunk × Bool × Bool)
  | [], _, has_text, has_images => some ([], has_text, has_images)
  | page :: rest, page_num, has_text, has_images =>
    let textPart : Option (List PdfChunk × Bool) :=
      if hasNonWs page.text then
        (chunk_text chunkSize chunkOverlap page.text).map (fun tcs =>
          (tcs.map (fun tc =>
            { content := String.mk tc.content
              chunk_type := "text"
              page_number := page_num
              chunk_id := some tc.chunk_id
              image_index := none
              image_data := none }), true))
      else some ([], has_text)
    match textPart with
    | none => none
    | some (tchunks, has_text') =>
      let has_images' := has_images || !page.images.isEmpty
      let ichunks := page.images.enum.filterMap (fun pi =>
        match pi.2 with
        | some payload => some
          { content := "Image from " ++ file_name ++ ", Page " ++
              toString page_num ++ ", Image " ++ toString (pi.1 + 1)
            chunk_type := "image"
            page_number := page_num
            chunk_id := none
            image_index := some (pi.1 + 1)
            image_data := some payload }
        | none => none)
      (processPdfPages chunkSize chunkOverlap file_name rest (page_num + 1)
        has_text' has_images').map
        (fun r => (tchunks ++ ichunks ++ r.1, r.2))

/-- `DocumentProcessor.process_pdf_file`: chunks, declared file type,
page count and the two flags.  The declared type is computed from
`has_text`/`has_images`:
`MIXED if (has_text and has_images) else (TEXT if has_text else IMAGE)`. -/
def process_pdf_file (chunkSize chunkOverlap : Nat) (file_name : String)
    (pages : List PdfPage) :
    Option (List PdfChunk × FileType × Nat × Bool × Bool) :=
  (processPdfPages chunkSize chunkOverlap file_name pages 1 false false).map
    (fun r =>
      (r.1,
       (if r.2.1 && r.2.2 then FileType.mixed
        else if r.2.1 then FileType.text else FileType.image),
       pages.length, r.2.1, r.2.2))

/-- The flags accumulated by the page loop: `has_text` records whether
any page had non-whitespace extractable text, `has_images` whether any
page *listed* at least one embedded image — successful extraction is
not required, because the code sets the flag before the `try` block. -/
theorem processPdfPages_flags (chunkSize chunkOverlap : Nat)
    (file_name : String) :
    ∀ (pages : List PdfPage) (page_num : Nat) (ht hi : Bool)
      (r : List PdfChunk × Bool × Bool),
      processPdfPages chunkSize chunkOverlap file_name pages page_num ht hi =
        some r →
      r.2.1 = (ht || pages.any (fun pg => hasNonWs pg.text)) ∧
      r.2.2 = (hi || pages.any (fun pg => !pg.images.isEmpty)) := by
  intro pages
  induction pages with
  | nil =>
    intro page_num ht hi r h
    simp only [processPdfPages, Option.some.injEq] at h
    subst h
    simp
  | cons page rest ih =>
    intro page_num ht hi r h
    rw [processPdfPages] at h
    by_cases htx : hasNonWs page.text = true
    · rw [if_pos htx] at h
      cases hct : chunk_text chunkSize chunkOverlap page.text with
      | none => rw [hct] at h; simp at h
      | some tcs =>
        rw [hct] at h
        simp only [Option.map_some'] at h
        rcases Option.map_eq_some'.mp h with ⟨r0, hr0, hr⟩
        subst hr
        rcases ih (page_num + 1) true (hi || !page.images.isEmpty) r0 hr0
          with ⟨h1, h2⟩
        constructor
        · simp only [h1, List.any_cons, htx]
          simp
        · simp only [h2, List.any_cons]
          rw [Bool.or_assoc]
    · rw [if_neg htx] at h
      simp only [] at h
      rcases Option.map_eq_some'.mp h with ⟨r0, hr0, hr⟩
      subst hr
      rcases ih (page_num + 1) ht (hi || !page.images.isEmpty) r0 hr0
        with ⟨h1, h2⟩
      have htx' : hasNonWs page.text = false := Bool.eq_false_iff.mpr htx
      constructor
      · simp [h1, htx']
      · simp only [h2, List.any_cons]
        rw [Bool.or_assoc]

/-- C3 counterexample.  A one-page PDF with text `"hello"` and one
corrupt embedded image (extraction fails, the image is skipped): the
emitted chunks are one text chunk and zero image chunks, yet the
declared file type is `MIXED`, because `has_images = True` was set from
the page's image *list* before extraction was attempted.  This refutes
"`MIXED` iff at least one text chunk and at least one image chunk were
emitted". -/
theorem c3_counterexample_corrupt_image_still_yields_mixed :
    (process_pdf_file 1000 200 "doc.pdf" [⟨"hello".toList, [none]⟩]).map
        (fun r => (r.2.1,
          (r.1.filter (fun c => c.chunk_type == "image")).length,
          (r.1.filter (fun c => c.chunk_type == "text")).length)) =
      some (FileType.mixed, 0, 1) := by
  decide

/-- C3 (amended).  The declared file type of a processed PDF is `MIXED`
iff some page has non-whitespace text and some page lists at least one
embedded image — whether or not the image was successfully extracted —
and `TEXT`, else `IMAGE`, otherwise.  A corrupt listed image therefore
counts towards `MIXED` even though it contributes no image chunk. -/
theorem c3_file_type_mixed_iff_text_flag_and_listed_image_flag
    (chunkSize chunkOverlap : Nat) (file_name : String)
    (pages : List PdfPage) (r : List PdfChunk × FileType × Nat × Bool × Bool)
    (h : process_pdf_file chunkSize chunkOverlap file_name pages = some r) :
    r.2.1 = (if pages.any (fun pg => hasNonWs pg.text) &&
        pages.any (fun pg => !pg.images.isEmpty) then FileType.mixed
      else if pages.any (fun pg => hasNonWs pg.text) then FileType.text
      else FileType.image) := by
  rw [process_pdf_file] at h
  rcases Option.map_eq_some'.mp h with ⟨r0, hr0, hr⟩
  rcases processPdfPages_flags chunkSize chunkOverlap file_name pages 1
    false false r0 hr0 with ⟨h1, h2⟩
  subst hr
  simp only [h1, h2, Bool.false_or]

/-- C3 witness: the amended characterization applied to the concrete
one-page PDF with a corrupt image. -/
theorem c3_file_type_witness :
    process_pdf_file 1000 200 "doc.pdf" [⟨"hello".toList, [none]⟩] =
      some ([⟨"hello", "text", 1, some 0, none, none⟩],
        FileType.mixed, 1, true, true) ∧
    (([⟨"hello", "text", 1, some 0, none, none⟩],
        FileType.mixed, 1, true, true) :
        List PdfChunk × FileType × Nat × Bool × Bool).2.1 =
      (if [(⟨"hello".toList, [none]⟩ : PdfPage)].any
          (fun pg => hasNonWs pg.text) &&
          [(⟨"hello".toList, [none]⟩ : PdfPage)].any
            (fun pg => !pg.images.isEmpty) then FileType.mixed
        else if [(⟨"hello".toList, [none]⟩ : PdfPage)].any
          (fun pg => hasNonWs pg.text) then FileType.text
        else FileType.image) :=
  ⟨by decide,
   c3_file_type_mixed_iff_text_flag_and_listed_image_flag 1000 200 "doc.pdf"
     [⟨"hello".toList, [none]⟩]
     ([⟨"hello", "text", 1, some 0, none, none⟩], FileType.mixed, 1, true, true)
     (by decide)⟩

/-! ## QueryService (query_service.py)

The two-stage retrieve-then-generate pipeline.  The Gemini chat model
is a parameter `llm : List Msg → Except String String` (`.error e`
models the model call raising an exception whose `str` is `e`); the
embedding model and distance metric are parameters as for the vector
store. -/

/-- A LangChain chat message. -/
inductive Msg where
  | system (content : String)
  | human (content : String)
  | ai (content : String)
  deriving Repr, DecidableEq

/-- Modelled from the spec: the fixed system instruction of the
Generate stage.  `backend/app/graph/prompt.py` is imported by
query_service.py but is not among the available sources; the spec says
only that it is one fixed system instruction, and no claim depends on
its text. -/
def system_prompt : String :=
  "You are a helpful assistant that answers questions based on the provided context."

/-- Rendering of a Python value in an f-string. -/
def mvalToString : MVal → String
  | .str s => s
  | .int n => toString n
  | .bool b => if b then "True" else "False"

/-- Model of Python's `"{:.2f}".format(score)`: the score rounded to
two decimal places (without reproducing binary floating point; no
claim depends on the rendered digits). -/
def formatFloat2 (q : ℚ) : String :=
  let cents : Int := ⌊q * 100 + 1 / 2⌋
  let n := cents.natAbs
  (if cents < 0 then "-" else "") ++ toString (n / 100) ++ "." ++
    (if n % 100 < 10 then "0" else "") ++ toString (n % 100)

/-- The per-hit context block of `_retrieve_documents`
(query_service.py, lines 63-82); `i` is the 1-based rank. -/
def renderDoc (i : Nat) (doc : RetrievedDoc) : String :=
  let doc_type := (metaLookup doc.metadata "chunk_type").getD (.str "text")
  let source := mvalToString ((metaLookup doc.metadata "file_name").getD
    (.str "Unknown"))
  if doc_type == .str "image" then
    "[Document " ++ toString i ++ "] (Image from " ++ source ++
    ")\nDescription: " ++ doc.content ++ "\nRelevance Score: " ++
    formatFloat2 doc.relevance_score ++ "\n"
  else
    let page_info := match metaLookup doc.metadata "page_number" with
      | some v => ", Page " ++ mvalToString v
      | none => ""
    "[Document " ++ toString i ++ "] (Text from " ++ source ++ page_info ++
    ")\nContent: " ++ doc.content ++ "\nRelevance Score: " ++
    formatFloat2 doc.relevance_score ++ "\n"

/-- The `RAGState` of `graph/state.py`, with the `metadata` dictionary
(`top_k`, `filter`, `include_images`) flattened into fields. -/
structure RAGState where
  query : String
  retrieved_docs : List RetrievedDoc
  context : String
  answer : String
  top_k : Nat
  filter : Option WhereClause
  include_images : Bool
  messages : List Msg

/-- `QueryService._retrieve_documents` (query_service.py, lines
45-89): query the vector store with the state's parameters and
assemble the context string. -/
def retrieve_documents {E : Type} (embedQuery : String → E)
    (distFn : E → E → ℚ) (col : List (StoredRecord E)) (st : RAGState) :
    RAGState :=
  let retrieved := VectorStore.query embedQuery distFn col st.query
    st.top_k st.filter st.include_images
  let parts := retrieved.enum.map (fun p => renderDoc (p.1 + 1) p.2)
  let context := if parts.isEmpty then "No relevant documents found."
    else String.intercalate "\n---\n" parts
  { st with retrieved_docs := retrieved, context := context }

/-- The synthesized user turn of `_generate_answer` (query_service.py,
lines 101-106). -/
def userMessage (context query : String) : String :=
  "Context from knowledge base:\n" ++ context ++ "\n\nQuestion: " ++ query ++
  "\n\nPlease provide a comprehensive answer based on the context above. " ++
  "If the context mentions images, acknowledge them in your response. " ++
  "Cite the source documents when providing information."

/-- The message sequence `_generate_answer` sends to the language
model (query_service.py, lines 109-111): the system prompt, the last
10 messages of the state's conversation history, and the synthesized
user turn; `none` when retrieval was empty and the model is not
invoked at all. -/
def sentMessages (st : RAGState) : Option (List Msg) :=
  if st.retrieved_docs.isEmpty then none
  else some ([Msg.system system_prompt] ++
    st.messages.drop (st.messages.length - 10) ++
    [Msg.human (userMessage st.context st.query)])

/-- `QueryService._generate_answer` (query_service.py, lines 91-126).
On model failure the answer becomes the literal error string and the
message history is left unchanged; on success the user/assistant turn
is appended to the state's history. -/
def generate_answer (llm : List Msg → Except String String)
    (st : RAGState) : RAGState :=
  match sentMessages st with
  | none =>
    { st with answer := "I couldn\x27t find any relevant information " ++
        "in the knowledge base to answer your question." }
  | some msgs =>
    match llm msgs with
    | .ok resp =>
      { st with
        answer := resp
        messages := st.messages ++ [Msg.human st.query, Msg.ai resp] }
    | .error e =>
      { st with
        answer := "Error generating response: " ++ e
        messages := st.messages }

/-- The initial state built by the synchronous `QueryService.query`
(query_service.py, lines 186-197): in particular `messages = []` — the
sync path reads no conversation store. -/
def initialState (query : String) (top_k : Nat)
    (filter_metadata : Option WhereClause) (include_images : Bool) :
    RAGState :=
  { query := query, retrieved_docs := [], context := "", answer := "",
    top_k := top_k, filter := filter_metadata,
    include_images := include_images, messages := [] }

/-- The dictionary returned by the synchronous `QueryService.query`
(wall-clock `processing_time` is outside the embedding). -/
structure QueryResult where
  query : String
  answer : String
  retrieved_documents : List RetrievedDoc
  total_results : Nat

namespace QueryService

/-- The synchronous `QueryService.query` (query_service.py, lines
183-221): retrieve, then generate, no checkpointer.  The function is
total: retrieval absorbs store errors (modelled in
`VectorStore.query`) and generation absorbs model errors, so the
outer `except` is not reachable in the embedded fragment. -/
def query {E : Type} (embedQuery : String → E) (distFn : E → E → ℚ)
    (col : List (StoredRecord E)) (llm : List Msg → Except String String)
    (q : String) (top_k : Nat) (filter_metadata : Option WhereClause)
    (include_images : Bool) : QueryResult :=
  let result := generate_answer llm
    (retrieve_documents embedQuery distFn col
      (initialState q top_k filter_metadata include_images))
  { query := q, answer := result.answer,
    retrieved_documents := result.retrieved_docs,
    total_results := result.retrieved_docs.length }

end QueryService

/-- C2.  On a query turn where retrieval found documents and the
language-model call raises with message `e`, the synchronous pipeline
returns (it is a total function — no exception reaches the caller) the
literal answer `"Error generating response: " ++ e`, and the state's
message history after generation equals the history before it: the
attempted user/assistant turn is not appended. -/
theorem c2_model_failure_gives_error_string_and_unchanged_history
    {E : Type} (embedQuery : String → E) (distFn : E → E → ℚ)
    (col : List (StoredRecord E)) (e q : String) (top_k : Nat)
    (filter_metadata : Option WhereClause) (include_images : Bool)
    (hne : VectorStore.query embedQuery distFn col q top_k filter_metadata
      include_images ≠ []) :
    (QueryService.query embedQuery distFn col (fun _ => .error e) q top_k
        filter_metadata include_images).answer =
      "Error generating response: " ++ e ∧
    (generate_answer (fun _ => .error e)
        (retrieve_documents embedQuery distFn col
          (initialState q top_k filter_metadata include_images))).messages =
      (retrieve_documents embedQuery distFn col
        (initialState q top_k filter_metadata include_images)).messages := by
  have hdocs : (retrieve_documents embedQuery distFn col
      (initialState q top_k filter_metadata include_images)).retrieved_docs =
      VectorStore.query embedQuery distFn col q top_k filter_metadata
        include_images := rfl
  have hempty : ¬((retrieve_documents embedQuery distFn col
      (initialState q top_k filter_metadata include_images)).retrieved_docs.isEmpty
        = true) := by
    intro hc
    exact hne (List.isEmpty_iff.mp (hdocs ▸ hc))
  have hsent : sentMessages (retrieve_documents embedQuery distFn col
      (initialState q top_k filter_metadata include_images)) =
      some ([Msg.system system_prompt] ++
        (retrieve_documents embedQuery distFn col
          (initialState q top_k filter_metadata include_images)).messages.drop
          ((retrieve_documents embedQuery distFn col
            (initialState q top_k filter_metadata include_images)).messages.length
              - 10) ++
        [Msg.human (userMessage
          (retrieve_documents embedQuery distFn col
            (initialState q top_k filter_metadata include_images)).context
          (retrieve_documents embedQuery distFn col
            (initialState q top_k filter_metadata include_images)).query)]) := by
    rw [sentMessages, if_neg hempty]
  constructor
  · show (generate_answer (fun _ => .error e)
      (retrieve_documents embedQuery distFn col
        (initialState q top_k filter_metadata include_images))).answer = _
    rw [generate_answer, hsent]
  · rw [generate_answer, hsent]

/-- C2 witness: a two-record collection, `include_images = true`, and a
model stub that always raises `"boom"`. -/
theorem c2_model_failure_witness :
    (VectorStore.query (fun _ => ()) (fun _ _ => (0 : ℚ)) exampleCol "q" 5
      none true ≠ []) ∧
    ((QueryService.query (fun _ => ()) (fun _ _ => (0 : ℚ)) exampleCol
        (fun _ => .error "boom") "q" 5 none true).answer =
      "Error generating response: " ++ "boom" ∧
    (generate_answer (fun _ => .error "boom")
        (retrieve_documents (fun _ => ()) (fun _ _ => (0 : ℚ)) exampleCol
          (initialState "q" 5 none true))).messages =
      (retrieve_documents (fun _ => ()) (fun _ _ => (0 : ℚ)) exampleCol
        (initialState "q" 5 none true)).messages) :=
  ⟨fun hcon => List.noConfusion hcon,
   c2_model_failure_gives_error_string_and_unchanged_history
     (fun _ => ()) (fun _ _ => (0 : ℚ)) exampleCol "boom" "q" 5 none true
     (fun hcon => List.noConfusion hcon)⟩

/-- C10.  The synchronous `QueryService.query` path always starts from
an empty message history (`initialState`), retrieval leaves the
history empty, and the message sequence sent to the language model is
exactly the system prompt followed by the synthesized user turn — the
"last 10 messages of prior history" window is always empty, so the
sequence is independent of whatever any conversation store holds. -/
theorem c10_sync_query_reads_no_conversation_history {E : Type}
    (embedQuery : String → E) (distFn : E → E → ℚ)
    (col : List (StoredRecord E)) (q : String) (top_k : Nat)
    (filter_metadata : Option WhereClause) (include_images : Bool) :
    (initialState q top_k filter_metadata include_images).messages = [] ∧
    (retrieve_documents embedQuery distFn col
      (initialState q top_k filter_metadata include_images)).messages = [] ∧
    sentMessages (retrieve_documents embedQuery distFn col
        (initialState q top_k filter_metadata include_images)) =
      (if (retrieve_documents embedQuery distFn col
          (initialState q top_k filter_metadata
            include_images)).retrieved_docs.isEmpty then none
       else some [Msg.system system_prompt,
         Msg.human (userMessage
           (retrieve_documents embedQuery distFn col
             (initialState q top_k filter_metadata include_images)).context
           q)]) := by
  refine ⟨rfl, rfl, ?_⟩
  rw [sentMessages]
  by_cases hemp : (retrieve_documents embedQuery distFn col
      (initialState q top_k filter_metadata
        include_images)).retrieved_docs.isEmpty = true
  · rw [if_pos hemp, if_pos hemp]
  · rw [if_neg hemp, if_neg hemp]
    rfl

/-! ## config.py and the /query route (routes.py)

`Settings` (config.py, lines 10-36) declares chunking, model, store and
server fields — and no `token_limit` field.  `query_documents`
(routes.py, line 131) nevertheless reads `settings.token_limit`; on a
pydantic model an undeclared attribute access raises `AttributeError`,
which the route's final `except Exception` handler turns into an HTTP
500.  The missing attribute is modelled as an `Option` field that is
`none`. -/

/-- `Settings` from config.py.  `token_limit?` models the *absence* of
a `token_limit` field: routes.py reads `settings.token_limit`, and the
access raises `AttributeError` because config.py never declares it. -/
structure Settings where
  chunk_size : Nat
  chunk_overlap : Nat
  top_k_results : Nat
  embedding_model : String
  clip_model : String
  chroma_persist_directory : String
  collection_name : String
  gemini_api_key : String
  upload_directory : String
  max_upload_size : Nat
  api_host : String
  api_port : Nat
  debug : Bool
  token_limit? : Option Nat

/-- The module-level `settings = Settings()` instance with config.py's
defaults. -/
def settings : Settings :=
  { chunk_size := 1000
    chunk_overlap := 200
    top_k_results := 5
    embedding_model := "sentence-transformers/all-MiniLM-L6-v2"
    clip_model := "openai/clip-vit-base-patch32"
    chroma_persist_directory := "./chroma_db"
    collection_name := "multimodal_rag"
    gemini_api_key := ""
    upload_directory := "./data/uploads"
    max_upload_size := 10485760
    api_host := "0.0.0.0"
    api_port := 8000
    debug := true
    token_limit? := none }

/-- `QueryRequest` from models.py (it has no `thread_id` field, so the
route's `getattr(request, 'thread_id', None)` always yields `None`). -/
structure QueryRequest where
  query : String
  top_k : Nat
  filter_metadata : Option WhereClause
  include_images : Bool

/-- An HTTPException as raised by the route. -/
structure HTTPError where
  status_code : Nat
  detail : String
  deriving Repr, DecidableEq

/-- One message stored in the in-memory `conversations_db`. -/
structure StoredMsg where
  role : String
  content : String
  token_count : Nat

/-- One conversation thread of `conversations_db`. -/
structure Thread where
  thread_id : String
  title : String
  messages : List StoredMsg

/-- The module-level `conversations_db` dictionary. -/
abbrev ConversationsDb := List (String × Thread)

/-- The `str` of the `AttributeError` raised by
`settings.token_limit`. -/
def attributeErrorMsg : String :=
  "\x27Settings\x27 object has no attribute \x27token_limit\x27"

/-- The response dictionary of a successful `/query` call. -/
structure RouteResponse where
  query : String
  answer : String
  retrieved_documents : List RetrievedDoc
  total_results : Nat
  thread_id : String
  query_tokens : Nat
  answer_tokens : Nat
  total_tokens : Nat
  conversation_tokens : Nat

/-- `query_documents` (routes.py, lines 121-222).  `freshThreadId`
models the `uuid4` drawn when the request carries no thread id (which
is always, since `QueryRequest` has no such field).  The function
returns the HTTP outcome and the updated `conversations_db`.  Because
`settings.token_limit?` is `none`, every request with a nonempty query
takes the `AttributeError` path; the remaining branches embed the dead
code after line 131 for completeness. -/
def query_documents {E : Type} (embedQuery : String → E)
    (distFn : E → E → ℚ) (col : List (StoredRecord E))
    (llm : List Msg → Except String String) (request : QueryRequest)
    (db : ConversationsDb) (freshThreadId : String) :
    Except HTTPError RouteResponse × ConversationsDb :=
  if !hasNonWs request.query.toList then
    (.error ⟨400, "Query cannot be empty"⟩, db)
  else
    let query_tokens := count_tokens request.query
    match settings.token_limit? with
    | none =>
      (.error ⟨500, "Query processing failed: " ++ attributeErrorMsg⟩, db)
    | some tokenLimit =>
      let thread_id := freshThreadId
      let conversation_tokens := ((db.find? (fun p => p.1 == thread_id)).map
        (fun p => (p.2.messages.map StoredMsg.token_count).sum)).getD 0
      let total_estimated_tokens := query_tokens + conversation_tokens
      if tokenLimit < query_tokens then
        (.error ⟨400, "Query too long (" ++ toString query_tokens ++
          " tokens). Limit is " ++ toString tokenLimit ++ "."⟩, db)
      else if tokenLimit < total_estimated_tokens then
        (.error ⟨400, "Conversation exceeds token limit (" ++
          toString total_estimated_tokens ++ " tokens). Limit is " ++
          toString tokenLimit ++ "."⟩, db)
      else
        let result := QueryService.query embedQuery distFn col llm
          request.query request.top_k request.filter_metadata
          request.include_images
        let answer_tokens := count_tokens result.answer
        let db1 := if (db.find? (fun p => p.1 == thread_id)).isSome then db
          else db ++ [(thread_id,
            ⟨thread_id,
             (if 50 < request.query.length then request.query.take 50 ++ "..."
              else request.query),
             []⟩)]
        let db2 := db1.map (fun p =>
          if p.1 == thread_id then
            (p.1, { p.2 with messages := p.2.messages ++
              [⟨"user", request.query, query_tokens⟩,
               ⟨"assistant", result.answer, answer_tokens⟩] })
          else p)
        (.ok { query := result.query
               answer := result.answer
               retrieved_documents := result.retrieved_documents
               total_results := result.total_results
               thread_id := thread_id
               query_tokens := query_tokens
               answer_tokens := answer_tokens
               total_tokens := query_tokens + answer_tokens
               conversation_tokens := total_estimated_tokens }, db2)

/-- C1.  The claim says an over-budget query is rejected with a client
error (HTTP 400) before retrieval/generation and that within-budget
queries proceed.  In the code, `Settings` declares no `token_limit`
field, so `settings.token_limit` (routes.py, line 131) raises
`AttributeError` and the route's `except Exception` handler returns
HTTP 500 — for *every* nonempty query, over budget or not, before the
token checks, before the pipeline runs, and without touching
`conversations_db`. -/
theorem c1_missing_token_limit_makes_every_query_a_500 {E : Type}
    (embedQuery : String → E) (distFn : E → E → ℚ)
    (col : List (StoredRecord E)) (llm : List Msg → Except String String)
    (request : QueryRequest) (db : ConversationsDb) (freshThreadId : String)
    (hq : hasNonWs request.query.toList = true) :
    query_documents embedQuery distFn col llm request db freshThreadId =
      (.error ⟨500, "Query processing failed: " ++ attributeErrorMsg⟩, db) := by
  have hq' : hasNonWs request.query.data = true := hq
  rw [query_documents, if_neg (by simp [hq'])]
  rfl

/-- C1 witness: the one-word query `"hello"` (1 token, far below any
intended limit) against an empty store and an empty conversation
database still yields HTTP 500 and leaves the database unchanged. -/
theorem c1_missing_token_limit_witness :
    hasNonWs "hello".toList = true ∧
    query_documents (fun _ : String => ()) (fun _ _ => (0 : ℚ))
        ([] : List (StoredRecord Unit)) (fun _ => .ok "ans")
        ⟨"hello", 5, none, true⟩ [] "t1" =
      (.error ⟨500, "Query processing failed: " ++ attributeErrorMsg⟩, []) :=
  ⟨by decide,
   c1_missing_token_limit_makes_every_query_a_500 (fun _ => ())
     (fun _ _ => (0 : ℚ)) [] (fun _ => .ok "ans") ⟨"hello", 5, none, true⟩
     [] "t1" (by decide)⟩
